import Mathlib

/-!
Verification of the buggy-coder code-editing core against its specification.

The development shallowly embeds the structural editors of `src/tools.py` and
`src/graph.py`, the protected-identifier collector and diff of `src/state.py`,
and the `ProtectedSymbolRegistry` of `src/protection.py`.  Snippets are plain
text (`List Char` wrapped in `String`); parsed source is a small Python AST;
the host tokenizer is modelled by an executable tokenizer for the lexical
fragment exercised here (names, numbers, single-line strings, one-character
operators, comments), with the inter-token text kept verbatim so that
`detokenize (tokenize s) = s` holds by construction, matching
`tokenize.untokenize` on full five-tuples when replacement token lengths are
unchanged.
-/

namespace BuggyCoder

/-! ## Character-level helpers -/

/-- Word characters of the regex class `\w` (ASCII fragment). -/
def isWordChar (c : Char) : Bool := c.isAlphanum || c == '_'

/-- Whitespace recognized by Python `str.strip`, `str.isspace` and the regex
class `\s` (ASCII fragment). -/
def isPySpace (c : Char) : Bool :=
  c == ' ' || c == '\t' || c == '\n' || c == '\r' || c == '\x0b' || c == '\x0c'

/-- Python `str.strip()`: drop leading and trailing whitespace. -/
def pyStrip (s : List Char) : List Char :=
  ((s.dropWhile isPySpace).reverse.dropWhile isPySpace).reverse

/-- Python `str.isidentifier()` (ASCII fragment): a nonempty run of word
characters not starting with a digit. -/
def pyIsIdentifier (s : String) : Bool :=
  match s.data with
  | [] => false
  | c :: rest => (c.isAlpha || c == '_') && rest.all isWordChar

/-- Value of a nonempty run of decimal digit characters. -/
def natOfDigits (ds : List Char) : Nat :=
  ds.foldl (fun a c => a * 10 + (c.toNat - ('0').toNat)) 0

/-- Decimal digit characters of a natural number. -/
def digitsOfNat (n : Nat) : List Char := (Nat.toDigits 10 n)

/-- Match a literal character sequence at the front of the input, returning the
remainder on success. -/
def expectLit : List Char → List Char → Option (List Char)
  | [], rest => some rest
  | _ :: _, [] => none
  | l :: ls, c :: cs => if c == l then expectLit ls cs else none

/-! ## Structural editors of `src/tools.py`

These are the four tools registered by `tools.py`: `add_import`,
`rename_symbol`, `fix_indexing` and `stub_function`. -/

/-- Embeds `tools.add_import` (src/tools.py lines 5-8): unconditionally
prepends `import module` plus a newline to the snippet. -/
def add_import (snippet module : String) : String :=
  ("import ") ++ module ++ ("\n") ++ snippet

/-- Python `snippet.replace(old, new, 1)` for nonempty `old`: replace the
leftmost occurrence of `old` as a raw substring. -/
def replaceFirstGo (old new : List Char) : List Char → List Char
  | [] => []
  | c :: rest =>
      if old.isPrefixOf (c :: rest) then new ++ (c :: rest).drop old.length
      else c :: replaceFirstGo old new rest

/-- Embeds `tools.rename_symbol` (src/tools.py lines 10-13):
`snippet.replace(old, new, 1)`, a raw first-substring replacement.  An empty
`old` makes `str.replace` with count 1 insert `new` at the front. -/
def rename_symbol (snippet old new : String) : String :=
  if old.data = [] then new ++ snippet
  else String.mk (replaceFirstGo old.data new.data snippet.data)

/-- Scanner for `re.sub(r"\[(\d+)\]", bump, snippet)` where `bump` rewrites
`[n]` to `[n + 1]`: every maximal bracketed digit run in the whole snippet is
incremented, scanning left to right without overlap. -/
def fixIndexingGo : Nat → List Char → List Char
  | 0, cs => cs
  | _ + 1, [] => []
  | fuel + 1, c :: rest =>
      if c == '[' then
        let ds := rest.takeWhile Char.isDigit
        match ds, rest.dropWhile Char.isDigit with
        | _ :: _, ']' :: rest3 =>
            ('[' :: digitsOfNat (natOfDigits ds + 1)) ++ (']' :: fixIndexingGo fuel rest3)
        | _, _ => c :: fixIndexingGo fuel rest
      else c :: fixIndexingGo fuel rest

/-- Embeds `tools.fix_indexing` (src/tools.py lines 15-21): increments every
bracketed numeric literal `[n]` anywhere in the snippet.  The tool takes no
occurrence, value filter or delta argument. -/
def fix_indexing (snippet : String) : String :=
  String.mk (fixIndexingGo (snippet.data.length + 1) snippet.data)

/-- The tail `\):\s*pass` of the `tools.stub_function` pattern, tried at one
position: a close parenthesis and colon, optional whitespace (which may span
newlines), then the literal `pass`.  Returns the remainder after `pass`. -/
def tryClosePass (cs : List Char) : Option (List Char) :=
  match cs with
  | ')' :: ':' :: rest => expectLit (("pass").data) (rest.dropWhile isPySpace)
  | _ => none

/-- Greedy search for the split point of `.*\):\s*pass`: try the largest
offset first, matching the regex engine's greedy `.*`. -/
def searchCloseDown : Nat → List Char → Option (List Char)
  | 0, rem => tryClosePass rem
  | k + 1, rem =>
      match tryClosePass (rem.drop (k + 1)) with
      | some r => some r
      | none => searchCloseDown k rem

/-- One attempt to match `def\s+(\w+)\(.*\):\s*pass` at the current position.
Returns the captured name and the remainder after the match. -/
def matchToolsStubAt (cs : List Char) : Option (List Char × List Char) :=
  match expectLit (("def").data) cs with
  | none => none
  | some r1 =>
      if r1.takeWhile isPySpace = [] then none
      else
        let r2 := r1.dropWhile isPySpace
        let nm := r2.takeWhile isWordChar
        if nm = [] then none
        else
          match r2.dropWhile isWordChar with
          | '(' :: r3 =>
              let lineLen := (r3.takeWhile (fun c => !(c == '\n'))).length
              match searchCloseDown lineLen r3 with
              | some after => some (nm, after)
              | none => none
          | _ => none

/-- Global left-to-right non-overlapping substitution loop of
`re.sub(r"def\s+(\w+)\(.*\):\s*pass", r"def \1():\n    return None", snippet)`. -/
def toolsStubGo : Nat → List Char → List Char
  | 0, cs => cs
  | _ + 1, [] => []
  | fuel + 1, c :: rest =>
      match matchToolsStubAt (c :: rest) with
      | some (nm, after) =>
          (("def ").data ++ nm ++ ("():\n    return None").data) ++ toolsStubGo fuel after
      | none => c :: toolsStubGo fuel rest

/-- Embeds `tools.stub_function` (src/tools.py lines 23-26): rewrites every
match of `def\s+(\w+)\(.*\):\s*pass` to `def NAME():\n    return None`,
discarding the matched parameter list. -/
def stub_function (snippet : String) : String :=
  String.mk (toolsStubGo (snippet.data.length + 1) snippet.data)

example : add_import ("def foo():\n    return 1\n") ("math")
    = ("import math\ndef foo():\n    return 1\n") := by decide
example : rename_symbol ("oldest = 1\n") ("old") ("new") = ("newest = 1\n") := by decide
example : fix_indexing ("a = xs[0]\nb = ys[0]\n") = ("a = xs[1]\nb = ys[1]\n") := by decide
example : stub_function ("def add(a, b): pass\n") = ("def add():\n    return None\n") := by decide

/-! ## Token model and editors of `src/graph.py`

`graph.py` registers its own versions of the four tools: `add_import_buggy`,
`rename_first_occurrence`, `bump_indices_off_by_one` and
`stub_function_singleline`.  `rename_first_occurrence` works on the token
stream of `tokenize.generate_tokens`; the stream is modelled with the exact
inter-token source text attached, so reassembly is lossless. -/

/-- Token kinds of the host tokenizer fragment used by the editors. -/
inductive TokKind where
  | NAME
  | NUMBER
  | STRING
  | OP
  | COMMENT
deriving DecidableEq, Repr

/-- A lexical token: kind and verbatim source text. -/
structure Tok where
  kind : TokKind
  text : List Char
deriving DecidableEq, Repr

/-- A token stream: each token is preceded by its verbatim gap (whitespace,
newlines), and a trailing gap follows the last token. -/
structure TokStream where
  items : List (List Char × Tok)
  tailGap : List Char
deriving DecidableEq, Repr

/-- Characters treated as inter-token gaps by the model tokenizer. -/
def isGapChar (c : Char) : Bool := c == ' ' || c == '\t' || c == '\n' || c == '\r'

/-- Single-character operator and delimiter tokens of the fragment. -/
def opChars : List Char :=
  ['(', ')', '[', ']', '{', '}', ':', ',', '.', ';', '=', '+', '-', '*', '/',
   '%', '<', '>', '!', '&', '|', '^', '~', '@']

/-- Scan one single-line string literal body after its opening quote `q`,
keeping escapes verbatim; fails on a newline or end of input. -/
def scanStringTok (q : Char) : List Char → Option (List Char × List Char)
  | [] => none
  | c :: rest =>
      if c == q then some ([q], rest)
      else if c == '\n' then none
      else if c == '\\' then
        match rest with
        | [] => none
        | e :: rest2 =>
            match scanStringTok q rest2 with
            | some (body, r) => some (c :: e :: body, r)
            | none => none
      else
        match scanStringTok q rest with
        | some (body, r) => some (c :: body, r)
        | none => none

/-- Scan one token at the current position. -/
def scanTok : List Char → Option (Tok × List Char)
  | [] => none
  | c :: rest =>
      if c.isAlpha || c == '_' then
        some (⟨TokKind.NAME, (c :: rest).takeWhile isWordChar⟩,
              (c :: rest).dropWhile isWordChar)
      else if c.isDigit then
        some (⟨TokKind.NUMBER, (c :: rest).takeWhile Char.isDigit⟩,
              (c :: rest).dropWhile Char.isDigit)
      else if c == '\'' || c == '"' then
        match scanStringTok c rest with
        | some (body, r) => some (⟨TokKind.STRING, c :: body⟩, r)
        | none => none
      else if c == '#' then
        some (⟨TokKind.COMMENT, (c :: rest).takeWhile (fun x => !(x == '\n'))⟩,
              (c :: rest).dropWhile (fun x => !(x == '\n')))
      else if opChars.contains c then some (⟨TokKind.OP, [c]⟩, rest)
      else none

/-- Tokenization loop: alternate gaps and tokens until the input is consumed;
fails outside the fragment (`tokenize.TokenError` territory). -/
def tokenizeLoop : Nat → List Char → List (List Char × Tok) → Option TokStream
  | 0, _, _ => none
  | fuel + 1, cs, acc =>
      let gap := cs.takeWhile isGapChar
      match cs.dropWhile isGapChar with
      | [] => some ⟨acc.reverse, gap⟩
      | rest =>
          match scanTok rest with
          | none => none
          | some (t, rest2) => tokenizeLoop fuel rest2 ((gap, t) :: acc)

/-- Models `tokenize.generate_tokens` over the fragment. -/
def pyTokenize (cs : List Char) : Option TokStream :=
  tokenizeLoop (cs.length + 1) cs []

/-- Models `tokenize.untokenize` on full five-tuples: reassemble gaps and
token texts verbatim (exact whenever replacement token lengths are
unchanged, which is the case for every evaluation in this file). -/
def detokenize (ts : TokStream) : List Char :=
  ts.items.foldr (fun p acc => p.1 ++ p.2.text ++ acc) ts.tailGap

/-- The token rewriting loop of `rename_first_occurrence` (src/graph.py lines
430-436): every NAME token whose text equals `old` is replaced by `new`, and
the replacements are counted.  All other tokens pass through unchanged, with
their gaps (positions) untouched. -/
def renameNameTokens (old new : List Char) :
    List (List Char × Tok) → List (List Char × Tok) × Nat
  | [] => ([], 0)
  | (g, t) :: rest =>
      if t.kind = TokKind.NAME ∧ t.text = old then
        ((g, ⟨TokKind.NAME, new⟩) :: (renameNameTokens old new rest).1,
         (renameNameTokens old new rest).2 + 1)
      else
        ((g, t) :: (renameNameTokens old new rest).1, (renameNameTokens old new rest).2)

/-- Python `re.subn(re.escape(old), new, s)` for nonempty `old`: replace all
occurrences left to right without overlap. -/
def replaceAllGo : Nat → List Char → List Char → List Char → List Char
  | 0, _, _, s => s
  | _ + 1, _, _, [] => []
  | fuel + 1, old, new, c :: rest =>
      if old.isPrefixOf (c :: rest) then
        new ++ replaceAllGo fuel old new ((c :: rest).drop old.length)
      else c :: replaceAllGo fuel old new rest

/-- Whether the character before the scan position permits a `(?<!\w)` match. -/
def boundaryOk (prev : Option Char) : Bool :=
  match prev with
  | some p => !(isWordChar p)
  | none => true

/-- Whether the character after a candidate match permits a `(?!\w)` match. -/
def afterBoundaryOk (old s : List Char) : Bool :=
  match s.drop old.length with
  | [] => true
  | d :: _ => !(isWordChar d)

/-- Python `re.subn(rf"(?<!\w){re.escape(old)}(?!\w)", new, s)` for nonempty
`old`: replace occurrences not adjacent to word characters. -/
def replaceWordBoundedGo : Nat → Option Char → List Char → List Char → List Char → List Char
  | 0, _, _, _, s => s
  | _ + 1, _, _, _, [] => []
  | fuel + 1, prev, old, new, c :: rest =>
      if boundaryOk prev && old.isPrefixOf (c :: rest) && afterBoundaryOk old (c :: rest) then
        new ++ replaceWordBoundedGo fuel old.getLast? old new ((c :: rest).drop old.length)
      else c :: replaceWordBoundedGo fuel (some c) old new rest

/-- Embeds `graph.rename_first_occurrence` (src/graph.py lines 417-446,
registered as the tool `rename_symbol`): on identifier arguments it replaces
every NAME token equal to `old` in the token stream; the snippet is given a
trailing newline before tokenizing and the newline is stripped again
afterwards if the input lacked one; on a tokenizer failure it falls back to a
word-bounded regex replacement, and on non-identifier arguments to a plain
escape-and-replace-all. -/
def rename_first_occurrence (snippet old new : String) : String :=
  if old = ("") || old == new then snippet
  else if pyIsIdentifier old && pyIsIdentifier new then
    let source := if snippet.data.getLast? == some '\n' then snippet.data
                  else snippet.data ++ ['\n']
    match pyTokenize source with
    | some ts =>
        let result := detokenize ⟨(renameNameTokens old.data new.data ts.items).1, ts.tailGap⟩
        if !(snippet.data.getLast? == some '\n') && result.getLast? == some '\n' then
          String.mk result.dropLast
        else String.mk result
    | none =>
        String.mk (replaceWordBoundedGo (snippet.data.length + 1) none old.data
          new.data snippet.data)
  else String.mk (replaceAllGo (snippet.data.length + 1) old.data new.data snippet.data)

/-- Embeds `graph.add_import_buggy` (src/graph.py lines 403-414, registered as
the tool `add_import`): strips the module name, then unconditionally prepends
`import module`, separated by a newline unless the snippet already starts
with one. -/
def add_import_buggy (snippet module : String) : String :=
  let normalized_module := String.mk (pyStrip module.data)
  let import_line := ("import ") ++ normalized_module
  if !(snippet = ("")) then
    if !(snippet.data.head? == some '\n') then import_line ++ ("\n") ++ snippet
    else import_line ++ snippet
  else import_line ++ ("\n")

example : rename_first_occurrence ("def foo():\n    return 1\n") ("foo") ("bar")
    = ("def bar():\n    return 1\n") := by decide
example : rename_first_occurrence ("x = a.old\n") ("old") ("neo") = ("x = a.neo\n") := by decide
example : rename_first_occurrence ("folder = old_file\nold_str = 'should stay old'\nvalue = old\nprint(old)\n")
    ("old") ("new")
    = ("folder = old_file\nold_str = 'should stay old'\nvalue = new\nprint(new)\n") := by decide
example : add_import_buggy ("def foo():\n    return 1\n") ("math")
    = ("import math\ndef foo():\n    return 1\n") := by decide

/-! ## `stub_function_singleline` of `src/graph.py` (lines 488-528) -/

/-- Embeds `graph._split_inline_comment` (src/graph.py lines 79-94): split a
line at the first `#` that is outside single and double quotes, tracking a
one-character escape flag exactly as the source loop does. -/
def splitInlineComment (text : List Char) : List Char × Option (List Char) :=
  splitInlineCommentGo text [] false false false
where
  splitInlineCommentGo : List Char → List Char → Bool → Bool → Bool →
      List Char × Option (List Char)
    | [], acc, _, _, _ => (acc.reverse, none)
    | c :: rest, acc, inS, inD, esc =>
        if c == '\\' && !esc then splitInlineCommentGo rest (c :: acc) inS inD true
        else if c == '\'' && !inD && !esc then splitInlineCommentGo rest (c :: acc) (!inS) inD false
        else if c == '"' && !inS && !esc then splitInlineCommentGo rest (c :: acc) inS (!inD) false
        else if c == '#' && !inS && !inD then (acc.reverse, some (c :: rest))
        else splitInlineCommentGo rest (c :: acc) inS inD false

/-- Embeds `graph._indent_child` (src/graph.py lines 102-105): extend a pure
tab indent with a tab, anything else with four spaces. -/
def indentChild (indent : List Char) : List Char :=
  if !(indent = []) && indent.contains '\t' && pyStrip indent = [] then indent ++ ['\t']
  else indent ++ ("    ").data

/-- Captured groups of one `FUNCTION_SINGLE_LINE_PATTERN` match
(src/graph.py lines 488-497), together with the raw text matched by
`def\s+` so the whole match can be reproduced verbatim. -/
structure DefMatch where
  indent : List Char
  asyncPart : List Char
  wsAfterDef : List Char
  name : List Char
  params : List Char
  returnsTxt : List Char
  suffix : List Char
deriving DecidableEq, Repr

/-- The verbatim text matched by the whole pattern (`match.group(0)`). -/
def defMatchGroup0 (m : DefMatch) : List Char :=
  m.indent ++ m.asyncPart ++ (("def").data) ++ m.wsAfterDef ++ m.name ++
    ('(' :: (m.params ++ (')' :: (m.returnsTxt ++ (':' :: m.suffix)))))

/-- The optional `(?P<returns>\s*->\s*[^:]+)?` group: matched text and
remainder, or `none` when the group does not participate. -/
def tryReturns (cs : List Char) : Option (List Char × List Char) :=
  let ws2 := cs.takeWhile isPySpace
  match cs.dropWhile isPySpace with
  | '-' :: '>' :: r2 =>
      let ws3 := r2.takeWhile isPySpace
      let r3 := r2.dropWhile isPySpace
      let t := r3.takeWhile (fun c => !(c == ':'))
      if t = [] then none
      else some (ws2 ++ ('-' :: '>' :: (ws3 ++ t)), r3.dropWhile (fun c => !(c == ':')))
  | _ => none

/-- One attempt to match `FUNCTION_SINGLE_LINE_PATTERN` at a line start:
`^[ \t]*(async\s+)?def\s+NAME\(PARAMS\)(\s*->\s*[^:]+)?:SUFFIX$` with
`MULTILINE`, where `SUFFIX` runs to the end of the line. -/
def matchDefLineAt (cs : List Char) : Option (DefMatch × List Char) :=
  let indent := cs.takeWhile (fun c => c == ' ' || c == '\t')
  let r0 := cs.dropWhile (fun c => c == ' ' || c == '\t')
  let ap :=
    match expectLit (("async").data) r0 with
    | some ra =>
        if ra.takeWhile isPySpace = [] then (([] : List Char), r0)
        else ((("async").data) ++ ra.takeWhile isPySpace, ra.dropWhile isPySpace)
    | none => (([] : List Char), r0)
  match expectLit (("def").data) ap.2 with
  | none => none
  | some r2 =>
      if r2.takeWhile isPySpace = [] then none
      else
        let wsAfterDef := r2.takeWhile isPySpace
        let r3 := r2.dropWhile isPySpace
        match r3 with
        | [] => none
        | c0 :: _ =>
            if !(c0.isAlpha || c0 == '_') then none
            else
              let nm := r3.takeWhile isWordChar
              match r3.dropWhile isWordChar with
              | '(' :: r5 =>
                  let ps := r5.takeWhile (fun c => !(c == ')'))
                  match r5.dropWhile (fun c => !(c == ')')) with
                  | ')' :: r6 =>
                      let rt :=
                        match tryReturns r6 with
                        | some (txt, rr) => (txt, rr)
                        | none => (([] : List Char), r6)
                      match rt.2 with
                      | ':' :: r8 =>
                          some (⟨indent, ap.1, wsAfterDef, nm, ps, rt.1,
                                 r8.takeWhile (fun c => !(c == '\n'))⟩,
                                r8.dropWhile (fun c => !(c == '\n')))
                      | _ => none
                  | _ => none
              | _ => none

/-- The replacement callback of `stub_function_singleline` (src/graph.py lines
505-524): when the suffix is exactly a `pass`, `...` or `Ellipsis` body
(before any inline comment), rebuild a normalized header and a
`raise NotImplementedError()` body line; otherwise reproduce the match. -/
def stubReplacement (m : DefMatch) : List Char :=
  let seg := splitInlineComment m.suffix
  if !(pyStrip seg.1 = ("pass").data ∨ pyStrip seg.1 = ("...").data ∨
       pyStrip seg.1 = ("Ellipsis").data) then defMatchGroup0 m
  else
    let header := m.indent ++ m.asyncPart ++ (("def ").data) ++ m.name ++
      ('(' :: (m.params ++ (')' :: (m.returnsTxt ++ [':']))))
    let body_line := indentChild m.indent ++ (("raise NotImplementedError()").data) ++
      (match seg.2 with
       | some ic => ic
       | none => [])
    header ++ ('\n' :: body_line)

/-- Global substitution loop of `FUNCTION_SINGLE_LINE_PATTERN.subn`: attempt
the anchored pattern at every line start, scanning left to right without
overlap. -/
def graphStubGo : Nat → Bool → List Char → List Char
  | 0, _, cs => cs
  | _ + 1, _, [] => []
  | fuel + 1, atStart, c :: rest =>
      if atStart then
        match matchDefLineAt (c :: rest) with
        | some (m, after) => stubReplacement m ++ graphStubGo fuel false after
        | none => c :: graphStubGo fuel (c == '\n') rest
      else c :: graphStubGo fuel (c == '\n') rest

/-- Embeds `graph.stub_function_singleline` (src/graph.py lines 500-528,
registered as the tool `stub_function`): replace single-line `pass`-style
definition bodies with `raise NotImplementedError()`. -/
def stub_function_singleline (snippet : String) : String :=
  String.mk (graphStubGo (snippet.data.length + 1) true snippet.data)

example : stub_function_singleline ("def compute(): pass\n")
    = ("def compute():\n    raise NotImplementedError()\n") := by decide
example : stub_function_singleline ("def compute():\n    pass\n")
    = ("def compute():\n    pass\n") := by decide
example : stub_function_singleline ("async def fetch(a, b) -> int: ...  # todo\n")
    = ("async def fetch(a, b) -> int:\n    raise NotImplementedError()# todo\n") := by decide

/-! ## Protected identifiers (`src/state.py`)

The collector `_ProtectedIdentifierCollector` walks a parsed module.  The AST
fragment below covers the node shapes the collector distinguishes; statement
and expression lists are their own inductive types so that the walk is
structurally recursive and kernel-evaluable. -/

/-- Comparison operators (`ast.Eq` versus everything else). -/
inductive PyCmpOp where
  | eq
  | other
deriving DecidableEq, Repr

mutual
/-- Expression fragment of the Python AST used by the collector. -/
inductive PyExpr where
  | name (id : String)
  | attribute (value : PyExpr) (attr : String)
  | strConst (s : String)
  | intConst (n : Int)
  | call (func : PyExpr) (args : PyExprList)
  | compare (left : PyExpr) (ops : List PyCmpOp) (comparators : PyExprList)

/-- A list of expressions. -/
inductive PyExprList where
  | nil
  | cons (head : PyExpr) (tail : PyExprList)
end

mutual
/-- Statement fragment of the Python AST used by the collector. -/
inductive PyStmt where
  | funcDef (name : String) (body : PyStmtList)
  | asyncFuncDef (name : String) (body : PyStmtList)
  | classDef (name : String) (body : PyStmtList)
  | ifStmt (test : PyExpr) (body : PyStmtList) (orelse : PyStmtList)
  | assign (target : String) (value : PyExpr)
  | exprStmt (value : PyExpr)
  | ret (value : Option PyExpr)
  | passStmt

/-- A list of statements. -/
inductive PyStmtList where
  | nil
  | cons (head : PyStmt) (tail : PyStmtList)
end

/-- Embeds `state._split_base` (src/state.py lines 56-59):
`identifier.split(".", 1)[0]`. -/
def splitBase (identifier : String) : String :=
  String.mk (identifier.data.takeWhile (fun c => !(c == '.')))

/-- Embeds `state._qualified_name` (src/state.py lines 108-116): reconstruct a
dotted callee name from `Name`/`Attribute` chains; other shapes yield `None`,
and a falsy parent collapses to the bare attribute. -/
def qualifiedName : PyExpr → Option String
  | PyExpr.name id => some id
  | PyExpr.attribute v attr =>
      match qualifiedName v with
      | some parent => if !(parent = ("")) then some (parent ++ (".") ++ attr) else some attr
      | none => some attr
  | _ => none

/-- Names recorded by `_record` inside `state._is_dunder_main_guard`. -/
def guardNames : PyExpr → List String
  | PyExpr.name id => [id]
  | _ => []

/-- String constants recorded by `_record` inside
`state._is_dunder_main_guard`. -/
def guardConstants : PyExpr → List String
  | PyExpr.strConst s => [s]
  | _ => []

/-- Convert an expression list to a `List` for non-collector helpers. -/
def pyExprListToList : PyExprList → List PyExpr
  | PyExprList.nil => []
  | PyExprList.cons h t => h :: pyExprListToList t

/-- Embeds `state._is_dunder_main_guard` (src/state.py lines 119-138): a
comparison whose operators are all `Eq`, mentioning the name `__name__` and
the string constant `__main__` among its left operand and comparators. -/
def isDunderMainGuard : PyExpr → Bool
  | PyExpr.compare left ops comparators =>
      if ops = [] || ops.any (fun op => !(op = PyCmpOp.eq)) then false
      else
        let parts := left :: pyExprListToList comparators
        (parts.flatMap guardNames).contains ("__name__") &&
          (parts.flatMap guardConstants).contains ("__main__")
  | _ => false

/-- Mutable fields of `state._ProtectedIdentifierCollector`. -/
structure CollectorState where
  functions : Finset String
  classes : Finset String
  calls : Finset String
  entry_points : Finset String
deriving DecidableEq

mutual
/-- The collector's dispatch over one expression: `visit_Call` records the
reconstructed callee name (and, inside a main guard, its base segment as an
entry point) and then generically visits the children; every other
expression shape only visits its children. -/
def visitExpr (guard : Bool) (st : CollectorState) : PyExpr → CollectorState
  | PyExpr.name _ => st
  | PyExpr.attribute v _ => visitExpr guard st v
  | PyExpr.strConst _ => st
  | PyExpr.intConst _ => st
  | PyExpr.call f args =>
      let st1 :=
        match qualifiedName f with
        | some identifier =>
            if !(identifier = ("")) then
              { st with
                calls := insert identifier st.calls
                entry_points :=
                  if guard then insert (splitBase identifier) st.entry_points
                  else st.entry_points }
            else st
        | none => st
      visitExprList guard (visitExpr guard st1 f) args
  | PyExpr.compare left _ comparators =>
      visitExprList guard (visitExpr guard st left) comparators

/-- Visit each expression of a list in order. -/
def visitExprList (guard : Bool) (st : CollectorState) : PyExprList → CollectorState
  | PyExprList.nil => st
  | PyExprList.cons h t => visitExprList guard (visitExpr guard st h) t
end

mutual
/-- The collector's dispatch over one statement: function and class
definitions record their names; an `if` whose test is the dunder-main guard
visits its body with the guard flag set (without visiting the test) and its
`orelse` with the previous flag; everything else generically visits its
children. -/
def visitStmt (guard : Bool) (st : CollectorState) : PyStmt → CollectorState
  | PyStmt.funcDef n body =>
      visitStmtList guard { st with functions := insert n st.functions } body
  | PyStmt.asyncFuncDef n body =>
      visitStmtList guard { st with functions := insert n st.functions } body
  | PyStmt.classDef n body =>
      visitStmtList guard { st with classes := insert n st.classes } body
  | PyStmt.ifStmt test body orelse =>
      if isDunderMainGuard test then
        visitStmtList guard (visitStmtList true st body) orelse
      else
        visitStmtList guard (visitStmtList guard (visitExpr guard st test) body) orelse
  | PyStmt.assign _ v => visitExpr guard st v
  | PyStmt.exprStmt v => visitExpr guard st v
  | PyStmt.ret v =>
      match v with
      | some e => visitExpr guard st e
      | none => st
  | PyStmt.passStmt => st

/-- Visit each statement of a list in order. -/
def visitStmtList (guard : Bool) (st : CollectorState) : PyStmtList → CollectorState
  | PyStmtList.nil => st
  | PyStmtList.cons h t => visitStmtList guard (visitStmt guard st h) t
end

/-- Embeds the frozen dataclass `state.ProtectedIdentifiers`
(src/state.py lines 15-44). -/
structure ProtectedIdentifiers where
  functions : Finset String
  classes : Finset String
  calls : Finset String
  entry_points : Finset String
deriving DecidableEq

/-- Embeds `ProtectedIdentifiers.all_identifiers` (src/state.py lines 38-44). -/
def ProtectedIdentifiers.all_identifiers (p : ProtectedIdentifiers) : Finset String :=
  p.functions ∪ p.classes ∪ p.calls ∪ p.entry_points

/-- Embeds `ProtectedIdentifiers.forbids` (src/state.py lines 24-36): a
nonempty name is forbidden when its base segment is a protected
function/class/entry-point name or the base of a recorded call, or when the
full dotted name is itself a recorded call. -/
def ProtectedIdentifiers.forbids (p : ProtectedIdentifiers) (name : String) : Bool :=
  if name = ("") then false
  else
    let base := splitBase name
    if base ∈ p.functions ∪ p.classes ∪ p.entry_points ∨ base ∈ p.calls.image splitBase then
      true
    else decide (name ∈ p.calls)

/-- Outcome of `ast.parse` on a snippet: a parsed module body, or a
`SyntaxError`. -/
inductive PySource where
  | unparsable
  | parsed (body : PyStmtList)

/-- A snippet as seen by the registry and the collector: its Python string
truthiness (empty or not) and its parse outcome. -/
structure Snip where
  truthy : Bool
  src : PySource

/-- Run the collector over a parsed module body (src/state.py lines 147-155). -/
def collectModule (body : PyStmtList) : ProtectedIdentifiers :=
  let c := visitStmtList false ⟨∅, ∅, ∅, ∅⟩ body
  ⟨c.functions, c.classes, c.calls, c.entry_points⟩

/-- Embeds `state.collect_protected_identifiers` (src/state.py lines 141-155):
parse the snippet and walk it; a `SyntaxError` yields the empty
`ProtectedIdentifiers()` snapshot instead of propagating. -/
def collect_protected_identifiers (snippet : Snip) : ProtectedIdentifiers :=
  match snippet.src with
  | PySource.unparsable => ⟨∅, ∅, ∅, ∅⟩
  | PySource.parsed body => collectModule body

/-- Embeds `state.find_protected_identifier_violations` (src/state.py lines
182-204): with a nonempty baseline, re-collect the current snippet and
report, per category, every baseline member missing from the current
category, tagged `function:`/`class:`/`entry-point:`/`call:`. -/
def find_protected_identifier_violations (snippet : Snip)
    (baseline : ProtectedIdentifiers) : Finset String :=
  if baseline.all_identifiers = ∅ then ∅
  else
    let current := collect_protected_identifiers snippet
    ((baseline.functions \ current.functions).image (fun n => ("function:") ++ n)) ∪
    ((baseline.classes \ current.classes).image (fun n => ("class:") ++ n)) ∪
    ((baseline.entry_points \ current.entry_points).image (fun n => ("entry-point:") ++ n)) ∪
    ((baseline.calls \ current.calls).image (fun n => ("call:") ++ n))

/-! ## `ProtectedSymbolRegistry` (`src/protection.py`) -/

/-- State of `protection.ProtectedSymbolRegistry` (src/protection.py lines
19-71): the frozen baseline and the original snippet record. -/
structure ProtectedSymbolRegistry where
  baseline : Option ProtectedIdentifiers
  original_snippet : Option Snip

/-- Embeds `ProtectedSymbolRegistry.register` (src/protection.py lines 31-37):
collect the snippet's identifiers, store them as the baseline only when
forced or uninitialized, and return the stored baseline. -/
def ProtectedSymbolRegistry.register (reg : ProtectedSymbolRegistry) (snippet : Snip)
    (force : Bool) : ProtectedSymbolRegistry × ProtectedIdentifiers :=
  let identifiers := collect_protected_identifiers snippet
  if force || reg.baseline.isNone then (⟨some identifiers, some snippet⟩, identifiers)
  else (reg, reg.baseline.getD identifiers)

/-- Embeds `ProtectedSymbolRegistry.ensure` (src/protection.py lines 39-44):
establish the baseline only when uninitialized and given a truthy snippet;
return the baseline, or the empty snapshot when still unset. -/
def ProtectedSymbolRegistry.ensure (reg : ProtectedSymbolRegistry)
    (snippet : Option Snip) : ProtectedSymbolRegistry × ProtectedIdentifiers :=
  match reg.baseline with
  | some b => (reg, b)
  | none =>
      match snippet with
      | some s =>
          if s.truthy then
            (⟨some (collect_protected_identifiers s), some s⟩, collect_protected_identifiers s)
          else (reg, ⟨∅, ∅, ∅, ∅⟩)
      | none => (reg, ⟨∅, ∅, ∅, ∅⟩)

/-- Embeds `ProtectedSymbolRegistry.is_protected` (src/protection.py lines
56-60): defer to the baseline's `forbids`, or `False` when uninitialized. -/
def ProtectedSymbolRegistry.is_protected (reg : ProtectedSymbolRegistry)
    (name : String) : Bool :=
  match reg.baseline with
  | none => false
  | some b => b.forbids name

/-- Embeds `ProtectedSymbolRegistry.validate` (src/protection.py lines 62-66):
diff the snippet against the frozen baseline, or report nothing when
uninitialized. -/
def ProtectedSymbolRegistry.validate (reg : ProtectedSymbolRegistry)
    (snippet : Snip) : Finset String :=
  match reg.baseline with
  | none => ∅
  | some b => find_protected_identifier_violations snippet b

/-- Embeds `ProtectedSymbolRegistry.reset` (src/protection.py lines 68-71). -/
def ProtectedSymbolRegistry.reset (_ : ProtectedSymbolRegistry) : ProtectedSymbolRegistry :=
  ⟨none, none⟩

/-- The module body of the snippet `def foo():\n    return 1\n`. -/
def fooModule : PyStmtList :=
  PyStmtList.cons
    (PyStmt.funcDef ("foo") (PyStmtList.cons (PyStmt.ret (some (PyExpr.intConst 1))) PyStmtList.nil))
    PyStmtList.nil

/-- The snippet `def foo():\n    return 1\n` as registry input. -/
def fooSnip : Snip := ⟨true, PySource.parsed fooModule⟩

example : (collect_protected_identifiers fooSnip).functions = {("foo")} := by decide
example : (collect_protected_identifiers fooSnip).forbids ("foo") = true := by decide
example :
    ((ProtectedSymbolRegistry.register ⟨none, none⟩ fooSnip false).1.is_protected ("foo"))
      = true := by decide

/-! ## Runtime zero-division scan

The repository's tests (`tests/test_tools_regressions.py`) import
`detect_runtime_issues` and `log_runtime_issues` from `src.graph`, but the
snapshot of `src/graph.py` does not contain them, so the scan is modelled
from the specification (§4.4). -/

/-- A static-analysis finding, matching the `RuntimeIssue` record of the
specification and the field names asserted by the tests. -/
structure RuntimeIssue where
  issue_type : String
  message : String
  lineno : Nat
  col_offset : Nat
deriving DecidableEq, Repr

/-- Binary operators distinguished by the scan. -/
inductive RBinOp where
  | div
  | floorDiv
  | mod
  | add
  | sub
  | mult
deriving DecidableEq, Repr

/-- Expressions walked by the scan, with the source position of each binary
operation. -/
inductive RExpr where
  | intConst (v : Int)
  | boolConst (b : Bool)
  | name (s : String)
  | bin (op : RBinOp) (l : RExpr) (r : RExpr) (lineno : Nat) (col_offset : Nat)
deriving DecidableEq, Repr

/-- A statement carrying one expression, enough for the scanned snippets. -/
inductive RStmt where
  | assign (target : String) (value : RExpr)
deriving DecidableEq, Repr

/-- Modelled from the spec: static evaluation of an operand to a constant,
including the boolean literal `False` coerced to `0` and constant-foldable
arithmetic such as `3 - 3`; names and division operators do not fold. -/
def evalConst : RExpr → Option Int
  | RExpr.intConst v => some v
  | RExpr.boolConst b => some (if b then 1 else 0)
  | RExpr.name _ => none
  | RExpr.bin op l r _ _ =>
      match evalConst l, evalConst r with
      | some a, some b =>
          match op with
          | RBinOp.add => some (a + b)
          | RBinOp.sub => some (a - b)
          | RBinOp.mult => some (a * b)
          | _ => none
      | _, _ => none

/-- Modelled from the spec: the message keyed by the operator, in the exact
wording asserted by `tests/test_tools_regressions.py`. -/
def zeroDivisionMessage : RBinOp → String
  | RBinOp.div => "Detected division by zero."
  | RBinOp.floorDiv => "Detected floor division by zero."
  | RBinOp.mod => "Detected modulo by zero."
  | _ => ""

/-- Walk one expression, reporting every `/`, `//` or `%` whose right operand
statically evaluates to zero. -/
def scanRExpr : RExpr → List RuntimeIssue
  | RExpr.intConst _ => []
  | RExpr.boolConst _ => []
  | RExpr.name _ => []
  | RExpr.bin op l r line col =>
      (if (op = RBinOp.div ∨ op = RBinOp.floorDiv ∨ op = RBinOp.mod) ∧ evalConst r = some 0
       then [⟨("ZeroDivisionError"), zeroDivisionMessage op, line, col⟩]
       else []) ++ scanRExpr l ++ scanRExpr r

/-- Ordering of findings: by line, then by column. -/
def insertIssue (x : RuntimeIssue) : List RuntimeIssue → List RuntimeIssue
  | [] => [x]
  | y :: ys =>
      if x.lineno < y.lineno ∨ (x.lineno = y.lineno ∧ x.col_offset ≤ y.col_offset) then
        x :: y :: ys
      else y :: insertIssue x ys

/-- Insertion sort of findings by position. -/
def sortIssues : List RuntimeIssue → List RuntimeIssue
  | [] => []
  | x :: xs => insertIssue x (sortIssues xs)

/-- Modelled from the spec: `detect_runtime_issues`, the runtime zero-division
scan, whose implementation is absent from src/ (only
`tests/test_tools_regressions.py` imports it from `src.graph`).  Walks binary
operations for `/`, `//`, `%` whose right operand statically evaluates to
`0` and reports findings sorted by line then column. -/
def detect_runtime_issues (body : List RStmt) : List RuntimeIssue :=
  sortIssues
    (body.foldr
      (fun st acc =>
        (match st with
         | RStmt.assign _ v => scanRExpr v) ++ acc)
      [])

example :
    detect_runtime_issues
        [RStmt.assign ("result") (RExpr.bin RBinOp.div (RExpr.intConst 10) (RExpr.intConst 0) 1 9)]
      = [⟨("ZeroDivisionError"), ("Detected division by zero."), 1, 9⟩] := by decide
example :
    detect_runtime_issues
        [RStmt.assign ("value") (RExpr.bin RBinOp.div (RExpr.intConst 10) (RExpr.intConst 2) 1 8)]
      = [] := by decide

/-! ## Shared helper lemmas about the violation diff -/

lemma mem_all_of_function {baseline : ProtectedIdentifiers} {f : String}
    (h : f ∈ baseline.functions) : f ∈ baseline.all_identifiers := by
  unfold ProtectedIdentifiers.all_identifiers
  exact Finset.mem_union_left _ (Finset.mem_union_left _ (Finset.mem_union_left _ h))

lemma mem_all_of_class {baseline : ProtectedIdentifiers} {f : String}
    (h : f ∈ baseline.classes) : f ∈ baseline.all_identifiers := by
  unfold ProtectedIdentifiers.all_identifiers
  exact Finset.mem_union_left _ (Finset.mem_union_left _ (Finset.mem_union_right _ h))

lemma mem_all_of_call {baseline : ProtectedIdentifiers} {f : String}
    (h : f ∈ baseline.calls) : f ∈ baseline.all_identifiers := by
  unfold ProtectedIdentifiers.all_identifiers
  exact Finset.mem_union_left _ (Finset.mem_union_right _ h)

lemma mem_all_of_entry_point {baseline : ProtectedIdentifiers} {f : String}
    (h : f ∈ baseline.entry_points) : f ∈ baseline.all_identifiers := by
  unfold ProtectedIdentifiers.all_identifiers
  exact Finset.mem_union_right _ h

lemma violations_has_missing_function {baseline : ProtectedIdentifiers} {current : Snip}
    {f : String} (h1 : f ∈ baseline.functions)
    (h2 : f ∉ (collect_protected_identifiers current).functions) :
    ("function:") ++ f ∈ find_protected_identifier_violations current baseline := by
  have hne : baseline.all_identifiers ≠ ∅ := Finset.ne_empty_of_mem (mem_all_of_function h1)
  unfold find_protected_identifier_violations
  rw [if_neg hne]
  simp only [Finset.mem_union, Finset.mem_image, Finset.mem_sdiff]
  exact Or.inl (Or.inl (Or.inl ⟨f, ⟨h1, h2⟩, rfl⟩))

lemma violations_has_missing_class {baseline : ProtectedIdentifiers} {current : Snip}
    {f : String} (h1 : f ∈ baseline.classes)
    (h2 : f ∉ (collect_protected_identifiers current).classes) :
    ("class:") ++ f ∈ find_protected_identifier_violations current baseline := by
  have hne : baseline.all_identifiers ≠ ∅ := Finset.ne_empty_of_mem (mem_all_of_class h1)
  unfold find_protected_identifier_violations
  rw [if_neg hne]
  simp only [Finset.mem_union, Finset.mem_image, Finset.mem_sdiff]
  exact Or.inl (Or.inl (Or.inr ⟨f, ⟨h1, h2⟩, rfl⟩))

lemma violations_has_missing_entry_point {baseline : ProtectedIdentifiers} {current : Snip}
    {f : String} (h1 : f ∈ baseline.entry_points)
    (h2 : f ∉ (collect_protected_identifiers current).entry_points) :
    ("entry-point:") ++ f ∈ find_protected_identifier_violations current baseline := by
  have hne : baseline.all_identifiers ≠ ∅ := Finset.ne_empty_of_mem (mem_all_of_entry_point h1)
  unfold find_protected_identifier_violations
  rw [if_neg hne]
  simp only [Finset.mem_union, Finset.mem_image, Finset.mem_sdiff]
  exact Or.inl (Or.inr ⟨f, ⟨h1, h2⟩, rfl⟩)

lemma violations_has_missing_call {baseline : ProtectedIdentifiers} {current : Snip}
    {f : String} (h1 : f ∈ baseline.calls)
    (h2 : f ∉ (collect_protected_identifiers current).calls) :
    ("call:") ++ f ∈ find_protected_identifier_violations current baseline := by
  have hne : baseline.all_identifiers ≠ ∅ := Finset.ne_empty_of_mem (mem_all_of_call h1)
  unfold find_protected_identifier_violations
  rw [if_neg hne]
  simp only [Finset.mem_union, Finset.mem_image, Finset.mem_sdiff]
  exact Or.inr ⟨f, ⟨h1, h2⟩, rfl⟩

/-! ## Claim theorems -/

/-- C1: the claim says that with a protection guard active, `rename_symbol`
called on a baseline function name raises `ProtectedIdentifierViolation`
instead of returning an edited snippet.  The code does not: the registry
built from the baseline `def foo():\n    return 1\n` reports `foo` as
protected, yet `rename_first_occurrence` (the registered `rename_symbol`
tool, a total function into strings with no violation outcome and no
registry access) returns the renamed snippet. -/
theorem C1_rename_edits_protected_name_without_violation :
    ((ProtectedSymbolRegistry.register ⟨none, none⟩ fooSnip false).1.is_protected ("foo"))
        = true ∧
    rename_first_occurrence ("def foo():\n    return 1\n") ("foo") ("bar")
        = ("def bar():\n    return 1\n") :=
  ⟨by decide, by decide⟩

/-- C2: for each category independently, every baseline member missing from
the corresponding category of the re-collected current snippet is reported
by `find_protected_identifier_violations`, with its category tag. -/
theorem C2_diff_reports_every_missing_member (baseline : ProtectedIdentifiers)
    (current : Snip) (f : String) :
    (f ∈ baseline.functions → f ∉ (collect_protected_identifiers current).functions →
        ("function:") ++ f ∈ find_protected_identifier_violations current baseline) ∧
    (f ∈ baseline.classes → f ∉ (collect_protected_identifiers current).classes →
        ("class:") ++ f ∈ find_protected_identifier_violations current baseline) ∧
    (f ∈ baseline.entry_points → f ∉ (collect_protected_identifiers current).entry_points →
        ("entry-point:") ++ f ∈ find_protected_identifier_violations current baseline) ∧
    (f ∈ baseline.calls → f ∉ (collect_protected_identifiers current).calls →
        ("call:") ++ f ∈ find_protected_identifier_violations current baseline) :=
  ⟨fun h1 h2 => violations_has_missing_function h1 h2,
   fun h1 h2 => violations_has_missing_class h1 h2,
   fun h1 h2 => violations_has_missing_entry_point h1 h2,
   fun h1 h2 => violations_has_missing_call h1 h2⟩

/-- The empty module, collected as a current snapshot with no functions. -/
def emptySnip : Snip := ⟨false, PySource.parsed PyStmtList.nil⟩

/-- A baseline with one member in every category (functions, classes, calls,
entry points). -/
def sampleBaseline : ProtectedIdentifiers := ⟨{("f")}, {("C")}, {("g")}, {("e")}⟩

/-- Witness for C2: the baseline collected from `def foo():\n    return 1\n`
contains `foo`; the empty current module does not; the diff reports
`function:foo`, and likewise for the other three categories. -/
theorem C2_diff_reports_every_missing_member_witness :
    (("foo") ∈ (collect_protected_identifiers fooSnip).functions) ∧
    (("foo") ∉ (collect_protected_identifiers emptySnip).functions) ∧
    (("function:foo") ∈ find_protected_identifier_violations emptySnip
        (collect_protected_identifiers fooSnip)) ∧
    (("class:C") ∈ find_protected_identifier_violations emptySnip sampleBaseline) ∧
    (("entry-point:e") ∈ find_protected_identifier_violations emptySnip sampleBaseline) ∧
    (("call:g") ∈ find_protected_identifier_violations emptySnip sampleBaseline) :=
  ⟨by decide, by decide,
   (C2_diff_reports_every_missing_member (collect_protected_identifiers fooSnip) emptySnip
      ("foo")).1 (by decide) (by decide),
   (C2_diff_reports_every_missing_member sampleBaseline emptySnip ("C")).2.1
      (by decide) (by decide),
   (C2_diff_reports_every_missing_member sampleBaseline emptySnip ("e")).2.2.1
      (by decide) (by decide),
   (C2_diff_reports_every_missing_member sampleBaseline emptySnip ("g")).2.2.2
      (by decide) (by decide)⟩

/-- C3: the claim says `add_import` is idempotent and a repeated call with the
same module is a no-op.  Both implementations (`tools.add_import` and
`graph.add_import_buggy`) unconditionally prepend, so the second call adds a
second `import math` line. -/
theorem C3_add_import_duplicates_on_repeat :
    add_import (add_import ("def foo():\n    return 1\n") ("math")) ("math")
        = ("import math\nimport math\ndef foo():\n    return 1\n") ∧
    ¬ (add_import (add_import ("def foo():\n    return 1\n") ("math")) ("math")
        = add_import ("def foo():\n    return 1\n") ("math")) ∧
    add_import_buggy (add_import_buggy ("def foo():\n    return 1\n") ("math")) ("math")
        = ("import math\nimport math\ndef foo():\n    return 1\n") ∧
    ¬ (add_import_buggy (add_import_buggy ("def foo():\n    return 1\n") ("math")) ("math")
        = add_import_buggy ("def foo():\n    return 1\n") ("math")) :=
  ⟨by decide, by decide, by decide, by decide⟩

/-- C4 counterexample: the claim says `rename_symbol` replaces only NAME
tokens equal to `old` that are not immediately preceded by a `.`, and never
alters longer identifiers or string contents.  The registered token-level
tool renames the attribute access `a.old` (a NAME token immediately preceded
by `.`), and the `tools.py` variant rewrites the longer identifier
`oldest`. -/
theorem C4_rename_counterexample :
    rename_first_occurrence ("x = a.old\n") ("old") ("neo") = ("x = a.neo\n") ∧
    rename_symbol ("oldest = 1\n") ("old") ("new") = ("newest = 1\n") :=
  ⟨by decide, by decide⟩

/-- C4 (amended): the token pass of `rename_first_occurrence` replaces exactly
the NAME tokens whose text equals `old` — including NAME tokens immediately
preceded by a `.` — and leaves every other token (longer identifiers such as
`oldest`, STRING tokens, operators) and all inter-token text unchanged; the
replacement count is the number of such NAME tokens. -/
theorem C4_rename_token_precision_amended (old new : List Char)
    (items : List (List Char × Tok)) :
    (renameNameTokens old new items).1 =
      items.map (fun p =>
        if p.2.kind = TokKind.NAME ∧ p.2.text = old then (p.1, ⟨TokKind.NAME, new⟩) else p) ∧
    (renameNameTokens old new items).2 =
      (items.filter (fun p => decide (p.2.kind = TokKind.NAME ∧ p.2.text = old))).length := by
  induction items with
  | nil => exact ⟨rfl, rfl⟩
  | cons p rest ih =>
      obtain ⟨g, t⟩ := p
      by_cases h : t.kind = TokKind.NAME ∧ t.text = old
      · simp [renameNameTokens, h, ih.1, ih.2, List.filter_cons]
      · simp [renameNameTokens, h, ih.1, ih.2, List.filter_cons]

/-- C5: the claim says `fix_indexing` adjusts exactly one explicitly targeted
subscript occurrence and leaves every other bracketed numeric literal
unchanged.  The tool takes no occurrence or value argument and increments
every bracketed literal: both unrelated subscripts change in one call. -/
theorem C5_fix_indexing_bumps_every_subscript :
    fix_indexing ("a = xs[0]\nb = ys[0]\n") = ("a = xs[1]\nb = ys[1]\n") := by decide

/-- C6: the claim says `stub_function` leaves the signature text of the target
definition character-for-character identical.  The `tools.py` tool rewrites
`def add(a, b): pass` to a stub whose parameter list `(a, b)` has been
discarded. -/
theorem C6_stub_function_discards_parameter_list :
    stub_function ("def add(a, b): pass\n") = ("def add():\n    return None\n") := by decide

/-- C7: the claim says `stub_function` supports the block form, turning
`def compute():\n    pass\n` into `def compute():\n    raise
NotImplementedError()\n` under the raise policy.  The registered tool's
pattern only matches a body on the definition line itself: the block form is
returned unchanged, while the single-line form is stubbed. -/
theorem C7_stub_function_ignores_block_form :
    stub_function_singleline ("def compute():\n    pass\n")
        = ("def compute():\n    pass\n") ∧
    ¬ (stub_function_singleline ("def compute():\n    pass\n")
        = ("def compute():\n    raise NotImplementedError()\n")) ∧
    stub_function_singleline ("def compute(): pass\n")
        = ("def compute():\n    raise NotImplementedError()\n") :=
  ⟨by decide, by decide, by decide⟩

/-- C8: once the baseline is established (`baseline = some b`), a `register`
call without force returns the registry unchanged together with the frozen
baseline, every `ensure` call returns the registry unchanged together with
the frozen baseline, and `validate` diffs against exactly that baseline;
only `reset` or a forced re-register replaces the stored record. -/
theorem C8_registry_baseline_frozen (reg : ProtectedSymbolRegistry)
    (b : ProtectedIdentifiers) (s : Snip) (os : Option Snip)
    (h : reg.baseline = some b) :
    reg.register s false = (reg, b) ∧
    reg.ensure os = (reg, b) ∧
    reg.validate s = find_protected_identifier_violations s b ∧
    (reg.register s true).1 = ⟨some (collect_protected_identifiers s), some s⟩ ∧
    reg.reset = ⟨none, none⟩ := by
  obtain ⟨bl, osn⟩ := reg
  simp only at h
  subst h
  refine ⟨?_, rfl, rfl, rfl, rfl⟩
  simp [ProtectedSymbolRegistry.register]

/-- A registry whose session baseline was established from `fooSnip`. -/
def armedRegistry : ProtectedSymbolRegistry :=
  ⟨some (collect_protected_identifiers fooSnip), some fooSnip⟩

/-- Witness for C8: with the concrete armed registry, a forceless `register`
and an `ensure` leave it untouched and `validate` compares against the
frozen baseline. -/
theorem C8_registry_baseline_frozen_witness :
    armedRegistry.baseline = some (collect_protected_identifiers fooSnip) ∧
    (armedRegistry.register emptySnip false
        = (armedRegistry, collect_protected_identifiers fooSnip) ∧
     armedRegistry.ensure none = (armedRegistry, collect_protected_identifiers fooSnip) ∧
     armedRegistry.validate emptySnip
        = find_protected_identifier_violations emptySnip (collect_protected_identifiers fooSnip) ∧
     (armedRegistry.register emptySnip true).1
        = ⟨some (collect_protected_identifiers emptySnip), some emptySnip⟩ ∧
     armedRegistry.reset = ⟨none, none⟩) :=
  ⟨rfl, C8_registry_baseline_frozen armedRegistry (collect_protected_identifiers fooSnip)
      emptySnip none rfl⟩

/-- C9: the zero-division scan on the module of `result = 10 / 0\n` reports
exactly one `ZeroDivisionError` finding at line 1 (column 9, the position of
the binary operation), the scan on `value = 10 / 2\n` reports none, and the
messages are keyed by the operator. -/
theorem C9_zero_division_scan_scenarios :
    detect_runtime_issues
        [RStmt.assign ("result") (RExpr.bin RBinOp.div (RExpr.intConst 10) (RExpr.intConst 0) 1 9)]
        = [⟨("ZeroDivisionError"), ("Detected division by zero."), 1, 9⟩] ∧
    detect_runtime_issues
        [RStmt.assign ("value") (RExpr.bin RBinOp.div (RExpr.intConst 10) (RExpr.intConst 2) 1 8)]
        = [] ∧
    zeroDivisionMessage RBinOp.div = ("Detected division by zero.") ∧
    zeroDivisionMessage RBinOp.floorDiv = ("Detected floor division by zero.") ∧
    zeroDivisionMessage RBinOp.mod = ("Detected modulo by zero.") :=
  ⟨by decide, by decide, by decide, by decide, by decide⟩

/-- C10: on an unparsable snippet `collect_protected_identifiers` returns the
empty snapshot (the `SyntaxError` branch) instead of propagating a failure,
so diffing an unparsable edit reports every baseline member of every
category as missing. -/
theorem C10_unparsable_collapses_to_empty_snapshot (b : ProtectedIdentifiers)
    (t : Bool) (f : String) :
    collect_protected_identifiers ⟨t, PySource.unparsable⟩ = ⟨∅, ∅, ∅, ∅⟩ ∧
    (f ∈ b.functions →
        ("function:") ++ f ∈ find_protected_identifier_violations ⟨t, PySource.unparsable⟩ b) ∧
    (f ∈ b.classes →
        ("class:") ++ f ∈ find_protected_identifier_violations ⟨t, PySource.unparsable⟩ b) ∧
    (f ∈ b.entry_points →
        ("entry-point:") ++ f ∈ find_protected_identifier_violations ⟨t, PySource.unparsable⟩ b) ∧
    (f ∈ b.calls →
        ("call:") ++ f ∈ find_protected_identifier_violations ⟨t, PySource.unparsable⟩ b) :=
  ⟨rfl,
   fun h1 => violations_has_missing_function h1 (by simp [collect_protected_identifiers]),
   fun h1 => violations_has_missing_class h1 (by simp [collect_protected_identifiers]),
   fun h1 => violations_has_missing_entry_point h1 (by simp [collect_protected_identifiers]),
   fun h1 => violations_has_missing_call h1 (by simp [collect_protected_identifiers])⟩

/-- Witness for C10: the sample baseline has one member per category, and the
diff against an unparsable snippet reports all four. -/
theorem C10_unparsable_collapses_to_empty_snapshot_witness :
    (("f") ∈ sampleBaseline.functions) ∧
    (("C") ∈ sampleBaseline.classes) ∧
    (("e") ∈ sampleBaseline.entry_points) ∧
    (("g") ∈ sampleBaseline.calls) ∧
    (("function:f") ∈ find_protected_identifier_violations ⟨true, PySource.unparsable⟩
        sampleBaseline) ∧
    (("class:C") ∈ find_protected_identifier_violations ⟨true, PySource.unparsable⟩
        sampleBaseline) ∧
    (("entry-point:e") ∈ find_protected_identifier_violations ⟨true, PySource.unparsable⟩
        sampleBaseline) ∧
    (("call:g") ∈ find_protected_identifier_violations ⟨true, PySource.unparsable⟩
        sampleBaseline) :=
  ⟨by decide, by decide, by decide, by decide,
   (C10_unparsable_collapses_to_empty_snapshot sampleBaseline true ("f")).2.1 (by decide),
   (C10_unparsable_collapses_to_empty_snapshot sampleBaseline true ("C")).2.2.1 (by decide),
   (C10_unparsable_collapses_to_empty_snapshot sampleBaseline true ("e")).2.2.2.1 (by decide),
   (C10_unparsable_collapses_to_empty_snapshot sampleBaseline true ("g")).2.2.2.2 (by decide)⟩

end BuggyCoder
